import Mathlib

/-!
Verification development for the Onedrive-GoogleDrive-Sync repository.

The Python sources under src/ are shallowly embedded as executable Lean
definitions: pure functions become Lean functions, database and WebSocket
state becomes explicit record passing, HTTP calls become oracles supplied
as parameters, and raised exceptions become `Except` errors.  Python byte
strings and text strings are both modelled as lists of natural numbers
(code points / byte values); the `str.encode` / `bytes.decode` coercions
between them are the identity on this representation.  External libraries
(cryptography.fernet, base64, tenacity, hashlib) are modelled by their
documented contracts, stated as structures whose algebraic laws appear as
hypotheses of the theorems that need them.
-/

namespace SyncRepo

/-- Python byte strings / text strings: a list of byte or code-point values. -/
abbrev Bytes := List Nat

/-! ## External library models -/

/-- Model of the external `cryptography.fernet.Fernet` cipher
(used by src/src/auth/token_manager.py): encryption is total, decryption
fails (raises `InvalidToken`) on anything not produced under the key,
modelled as `none`.  Its laws are hypotheses of the theorems below. -/
structure Fernet where
  encrypt : Bytes → Bytes
  decrypt : Bytes → Option Bytes

/-- Model of the external `base64` stdlib module: `b64encode` is total,
`b64decode` fails (raises) on invalid input, modelled as `none`. -/
structure B64Codec where
  enc : Bytes → Bytes
  dec : Bytes → Option Bytes

/-! ## src/src/auth/token_manager.py -/

namespace TokenManager

/-- TokenManager.encrypt_token (src/src/auth/token_manager.py:27-32).
Python falsiness of the argument (`if not token`) covers both `None` and
the empty string, hence the `Option Bytes` argument and the `[]` guard.
On a non-empty token the code returns
`base64.b64encode(cipher.encrypt(token.encode())).decode()`. -/
def encrypt_token (cipher : Fernet) (b64 : B64Codec) (token : Option Bytes) : Option Bytes :=
  match token with
  | none => none
  | some t => if t = [] then none else some (b64.enc (cipher.encrypt t))

/-- TokenManager.decrypt_token (src/src/auth/token_manager.py:34-44).
The body base64-decodes, Fernet-decrypts and utf-8-decodes inside a
catch-all `try/except` that returns `None` on any failure; each fallible
step therefore maps its failure to `none` here. -/
def decrypt_token (cipher : Fernet) (b64 : B64Codec) (encrypted_token : Option Bytes) : Option Bytes :=
  match encrypted_token with
  | none => none
  | some s =>
    if s = [] then none
    else
      match b64.dec s with
      | none => none
      | some decoded =>
        match cipher.decrypt decoded with
        | none => none
        | some decrypted => some decrypted

end TokenManager

/-! ## src/src/sync/file_operations.py : calculate_file_hash -/

namespace FileOperations

/-- FileOperations.CHUNK_SIZE (src/src/sync/file_operations.py:16). -/
def CHUNK_SIZE : Nat := 10 * 1024 * 1024

/-- Model of the Python read loop `iter(lambda: f.read(4096), b"")` in
calculate_file_hash (src/src/sync/file_operations.py:23): the successive
4096-byte blocks of the file content, the last one possibly shorter. -/
def readBlocks4096 : Bytes → List Bytes
  | [] => []
  | b :: bs => ((b :: bs).take 4096) :: readBlocks4096 ((b :: bs).drop 4096)
termination_by l => l.length
decreasing_by simp [List.length_drop]; omega

/-- State of a `hashlib.sha256()` object: per the hashlib documentation,
repeated `update` calls are equivalent to one call on the concatenation of
the fed buffers, so the state is the bytes fed so far. -/
structure Sha256State where
  fed : Bytes
deriving DecidableEq

/-- sha256_hash.update(byte_block) (src/src/sync/file_operations.py:24). -/
def shaUpdate (st : Sha256State) (block : Bytes) : Sha256State :=
  ⟨st.fed ++ block⟩

/-- sha256_hash.hexdigest() (src/src/sync/file_operations.py:25): the hex
digest of everything fed, for an abstract digest function `sha256hex`
standing for the actual SHA-256 hex digest of a byte string. -/
def hexdigest (sha256hex : Bytes → Bytes) (st : Sha256State) : Bytes :=
  sha256hex st.fed

/-- FileOperations.calculate_file_hash (src/src/sync/file_operations.py:18-25):
feed the file content to the hash object in 4096-byte blocks, then take the
hex digest.  `content` is the full byte content of the file at `file_path`;
`sha256hex` is the (abstract) SHA-256 hex digest function. -/
def calculate_file_hash (sha256hex : Bytes → Bytes) (content : Bytes) : Bytes :=
  hexdigest sha256hex ((readBlocks4096 content).foldl shaUpdate ⟨[]⟩)

/-! ### The tenacity retry decorator

All four HTTP transfer operations in src/src/sync/file_operations.py carry
the decorator
`@retry(stop=stop_after_attempt(5), wait=wait_exponential(multiplier=1, min=4, max=60), reraise=True)`
with the library default retry predicate, which retries on ANY exception.
The decorated body is abstracted to an attempt oracle
`action : Nat → Except ErrKind α` giving the outcome of the k-th attempt
(1-based); the chunk-level behaviour of the bodies is modelled separately
below. -/

/-- Classification of the exceptions an attempt can raise, following the
spec taxonomy: auth errors (401/403), permanent errors (other 4xx),
transient errors (network/5xx). -/
inductive ErrKind where
  | auth
  | permanent
  | transient
deriving DecidableEq

/-- Model of tenacity `wait_exponential(multiplier, min=mn, max=mx)`: the
sleep after the failed attempt numbered `attempt_number` (1-based) is
`max(mn, min(multiplier * 2 ** attempt_number, mx))`. -/
def wait_exponential (multiplier mn mx attempt_number : Nat) : Nat :=
  max mn (min (multiplier * 2 ^ attempt_number) mx)

/-- One run of a function decorated with
`retry(stop=stop_after_attempt(5), wait=wait_exponential(1, 4, 60), reraise=True)`:
`k` is the current attempt number, `remaining` the number of further
attempts the stop condition still allows.  Returns the final outcome
(`reraise=True`: the last error), the number of the attempt that ended the
call, and the list of backoff waits slept between attempts.  The retry
predicate is the library default: every exception is retried, regardless
of its `ErrKind`. -/
def retryGo (action : Nat → Except ErrKind α) (k : Nat) :
    Nat → Except ErrKind α × Nat × List Nat
  | 0 => (action k, k, [])
  | remaining + 1 =>
    match action k with
    | .ok a => (.ok a, k, [])
    | .error _ =>
      let rest := retryGo action (k + 1) remaining
      (rest.1, rest.2.1, wait_exponential 1 4 60 k :: rest.2.2)

/-- A call of a file-operation method under the decorator used throughout
src/src/sync/file_operations.py: 5 attempts in total, starting at attempt 1. -/
def retryCall (action : Nat → Except ErrKind α) : Except ErrKind α × Nat × List Nat :=
  retryGo action 1 4

/-- FileOperations.download_onedrive_file (src/src/sync/file_operations.py:27-72)
viewed through its retry decorator; the body is the attempt oracle. -/
def download_onedrive_file (action : Nat → Except ErrKind Bytes) :
    Except ErrKind Bytes × Nat × List Nat :=
  retryCall action

/-- FileOperations.upload_to_gdrive (src/src/sync/file_operations.py:74-150)
viewed through its retry decorator; the body is the attempt oracle. -/
def upload_to_gdrive_retried (action : Nat → Except ErrKind Bytes) :
    Except ErrKind Bytes × Nat × List Nat :=
  retryCall action

/-- FileOperations.download_gdrive_file (src/src/sync/file_operations.py:152-185)
viewed through its retry decorator; the body is the attempt oracle. -/
def download_gdrive_file (action : Nat → Except ErrKind Bytes) :
    Except ErrKind Bytes × Nat × List Nat :=
  retryCall action

/-- FileOperations.upload_to_onedrive (src/src/sync/file_operations.py:187-250)
viewed through its retry decorator; the body is the attempt oracle. -/
def upload_to_onedrive_retried (action : Nat → Except ErrKind Bytes) :
    Except ErrKind Bytes × Nat × List Nat :=
  retryCall action

/-! ### The chunked upload loops

upload_to_gdrive (lines 122-150) and upload_to_onedrive (lines 222-250)
share the same loop, differing only in the continue status (Google: 308
Resume Incomplete; OneDrive: 202 Accepted).  The loop state is `uploaded`
(the byte offset the code believes was uploaded, also the Content-Range
start) and `pos` (the position of the file handle advanced by `f.read`);
`resp i` is the HTTP status the server returns for the `i`-th chunk PUT. -/

/-- Number of bytes the iteration with state (`uploaded`, `pos`) actually
sends: `chunk_size = min(CHUNK_SIZE, file_size - uploaded)` is requested,
but `f.read` at position `pos` of an `n`-byte file yields at most `n - pos`
bytes. -/
def chunkLen (n uploaded pos : Nat) : Nat :=
  min (min CHUNK_SIZE (n - uploaded)) (n - pos)

/-- The chunk PUT request of one loop iteration.  The Content-Range header
`bytes uploaded-(uploaded + len(chunk) - 1)/file_size` is recorded with an
exclusive end offset `rangeStop = rangeStart + dataLen`; `dataLen` is the
Content-Length. -/
structure ChunkRequest where
  rangeStart : Nat
  rangeStop : Nat
  total : Nat
  dataLen : Nat
deriving DecidableEq

/-- The request built from loop state (`uploaded`, `pos`) for an `n`-byte file. -/
def mkChunkRequest (n uploaded pos : Nat) : ChunkRequest :=
  ⟨uploaded, uploaded + chunkLen n uploaded pos, n, chunkLen n uploaded pos⟩

/-- How one upload call ends. -/
inductive UploadOutcome where
  | success (lastRequest : Nat)
  | httpError (status : Nat)
  | uploadFailed
  | noTermination
deriving DecidableEq

/-- The chunked upload loop shared by upload_to_gdrive
(src/src/sync/file_operations.py:122-150, contStatus = 308) and
upload_to_onedrive (lines 222-250, contStatus = 202).  Status 200/201
returns the response body (`success i` records which request was
returned); the continue status advances `uploaded`;
`response.raise_for_status()` raises only for statuses 400-599; any other
status falls through the if/elif chain and repeats the loop WITHOUT
advancing `uploaded`, while the file handle has still advanced.  When the
loop condition `uploaded < file_size` fails, the code raises
`Exception("Upload failed")`.  `fuel` bounds the number of iterations the
model executes; exhausting it means the Python loop did not finish within
that many iterations. -/
def upload_chunk_loop (contStatus : Nat) (resp : Nat → Nat) (n : Nat) :
    Nat → Nat → Nat → Nat → List ChunkRequest → UploadOutcome × List ChunkRequest
  | 0, _, _, _, reqs => (.noTermination, reqs)
  | fuel + 1, uploaded, pos, i, reqs =>
    if uploaded < n then
      if resp i = 200 ∨ resp i = 201 then
        (.success i, reqs ++ [mkChunkRequest n uploaded pos])
      else if resp i = contStatus then
        upload_chunk_loop contStatus resp n fuel (uploaded + chunkLen n uploaded pos)
          (pos + chunkLen n uploaded pos) (i + 1) (reqs ++ [mkChunkRequest n uploaded pos])
      else if 400 ≤ resp i ∧ resp i < 600 then
        (.httpError (resp i), reqs ++ [mkChunkRequest n uploaded pos])
      else
        upload_chunk_loop contStatus resp n fuel uploaded
          (pos + chunkLen n uploaded pos) (i + 1) (reqs ++ [mkChunkRequest n uploaded pos])
    else (.uploadFailed, reqs)

/-- The upload loop of FileOperations.upload_to_gdrive, from its initial
state: `uploaded = 0`, file handle at 0, first request index 0. -/
def gdrive_upload_loop (resp : Nat → Nat) (n fuel : Nat) :
    UploadOutcome × List ChunkRequest :=
  upload_chunk_loop 308 resp n fuel 0 0 0 []

/-- The upload loop of FileOperations.upload_to_onedrive, from its initial
state. -/
def onedrive_upload_loop (resp : Nat → Nat) (n fuel : Nat) :
    UploadOutcome × List ChunkRequest :=
  upload_chunk_loop 202 resp n fuel 0 0 0 []

/-- The sequence of chunk requests the loop is meant to issue for an
`n`-byte file starting at offset `uploaded`: maximal CHUNK_SIZE slices,
in order, until the file is covered. -/
def chunkPlan (n : Nat) (uploaded : Nat) : List ChunkRequest :=
  if _h : uploaded < n then
    ⟨uploaded, uploaded + min CHUNK_SIZE (n - uploaded), n, min CHUNK_SIZE (n - uploaded)⟩ ::
      chunkPlan n (uploaded + min CHUNK_SIZE (n - uploaded))
  else []
termination_by n - uploaded
decreasing_by simp [CHUNK_SIZE]; omega

end FileOperations

/-! ## src/src/database/models.py -/

namespace Models

/-- Row of connected_accounts (src/src/database/models.py:30-44), restricted
to the columns the embedded routines read.  `id` is the primary key, unique
in any well-formed table. -/
structure ConnectedAccount where
  id : Nat
  user_id : Nat
  platform : String
  access_token_encrypted : Option Bytes
  refresh_token_encrypted : Option Bytes
  token_expires_at : Option Nat
deriving DecidableEq

/-- Row of sync_jobs (src/src/database/models.py:47-66). -/
structure SyncJob where
  id : Nat
  user_id : Nat
  name : String
  onedrive_account_id : Nat
  gdrive_account_id : Nat
  onedrive_folder : String
  gdrive_folder : String
  direction : String
  enabled : Bool
  last_sync : Option Nat
deriving DecidableEq

/-- Row of sync_history (src/src/database/models.py:84-97); files_synced and
bytes_transferred carry column default 0. -/
structure SyncHistory where
  sync_job_id : Nat
  status : String
  files_synced : Nat
  bytes_transferred : Nat
  started_at : Nat
  completed_at : Option Nat
  error_message : Option String
deriving DecidableEq

/-- The database state the embedded routines touch: the three tables plus a
commit counter — each `db.commit()` increments it, so an unchanged counter
witnesses that no commit happened. -/
structure Database where
  jobs : List SyncJob
  accounts : List ConnectedAccount
  histories : List SyncHistory
  commits : Nat
deriving DecidableEq

end Models

/-! ## src/src/api/websocket.py -/

namespace Websocket

/-- One open WebSocket connection of a user, described by how
`await connection.send_json(message)` behaves for the message being
delivered: `.ok ()` delivers, `.error ()` raises. -/
abbrev Connection := Except Unit Unit

/-- ConnectionManager.active_connections (src/src/api/websocket.py:15):
a dict from user_id to the list of open connections, as an association list. -/
abbrev ActiveConnections := List (Nat × List Connection)

/-- Dict membership test and lookup `active_connections[user_id]`. -/
def lookupConnections (active : ActiveConnections) (user_id : Nat) :
    Option (List Connection) :=
  (active.find? (fun p => p.1 == user_id)).map Prod.snd

/-- Result of one send attempt. -/
inductive SendOutcome where
  | sent
  | errorSwallowed
deriving DecidableEq

/-- The loop body `try: await connection.send_json(message) except: pass`
(src/src/api/websocket.py:35-38): a raising send is swallowed and the loop
continues with the next connection. -/
def trySendJson (conn : Connection) : SendOutcome :=
  match conn with
  | .ok _ => .sent
  | .error _ => .errorSwallowed

/-- The message dict built by send_sync_status
(src/src/api/websocket.py:56-62); `timestamp` is the event-loop time. -/
structure WsMessage where
  type : String
  job_id : Nat
  status : String
  progress : List (String × String)
  timestamp : Nat
deriving DecidableEq

/-- One attempted delivery: which message was attempted and how it went. -/
structure Attempt where
  message : WsMessage
  outcome : SendOutcome
deriving DecidableEq

/-- ConnectionManager.send_personal_message (src/src/api/websocket.py:31-38):
if the user has connections, attempt the send on each of them in order.
The `Except` result type is where an uncaught exception of the coroutine
would surface as `.error`. -/
def send_personal_message (active : ActiveConnections) (message : WsMessage)
    (user_id : Nat) : Except String (List Attempt) :=
  match lookupConnections active user_id with
  | none => .ok []
  | some conns => .ok (conns.map (fun c => ⟨message, trySendJson c⟩))

/-- send_sync_status (src/src/api/websocket.py:54-63): build the
sync_status message (`progress or {}`) and hand it to
send_personal_message on the global manager state. -/
def send_sync_status (active : ActiveConnections) (user_id job_id : Nat)
    (status : String) (progress : Option (List (String × String))) (now : Nat) :
    Except String (List Attempt) :=
  send_personal_message active ⟨"sync_status", job_id, status, progress.getD [], now⟩ user_id

end Websocket

/-! ## src/src/api/routes/folders.py : get_valid_token -/

namespace Folders

/-- The dict returned by AzureOAuth.refresh_access_token /
GoogleOAuth.refresh_access_token on success (src/src/auth/azure_oauth.py:90-110):
access_token, optionally a new refresh_token, optionally expires_in. -/
structure RefreshResult where
  access_token : Bytes
  refresh_token : Option Bytes
  expires_in : Option Nat
deriving DecidableEq

/-- The two module-scope OAuth clients used by get_valid_token
(src/src/api/routes/folders.py:21-22), as refresh oracles: each takes the
decrypted refresh token (possibly None) and returns the token dict, or
None when the provider reports an error. -/
structure OAuthEnv where
  azureRefresh : Option Bytes → Option RefreshResult
  googleRefresh : Option Bytes → Option RefreshResult

/-- Result of a get_valid_token call: the returned token (the value of a
Python `return`, which in the unexpired branch may be None when decryption
fails) or a raised HTTPException. -/
inductive TokenResult where
  | ok (token : Option Bytes)
  | httpError (statusCode : Nat) (detail : String)
deriving DecidableEq

/-- get_valid_token (src/src/api/routes/folders.py:39-67).  Returns the
result, the account row after the call, and whether `db.commit()` ran.
The expiry test is `token_expires_at and token_expires_at < utcnow()`; on
refresh success the new tokens are re-encrypted and persisted with expiry
`utcnow() + timedelta(seconds=result.get('expires_in', 3600))`; the stored
refresh token is replaced only when the result holds a truthy (non-empty)
refresh_token.  On refresh failure an HTTPException 401 is raised. -/
def get_valid_token (cipher : Fernet) (b64 : B64Codec) (env : OAuthEnv) (now : Nat)
    (account : Models.ConnectedAccount) :
    TokenResult × Models.ConnectedAccount × Bool :=
  match account.token_expires_at with
  | some expiry =>
    if expiry < now then
      match (if account.platform = "onedrive"
             then env.azureRefresh (TokenManager.decrypt_token cipher b64 account.refresh_token_encrypted)
             else env.googleRefresh (TokenManager.decrypt_token cipher b64 account.refresh_token_encrypted)) with
      | some r =>
        (.ok (some r.access_token),
         { account with
            access_token_encrypted := TokenManager.encrypt_token cipher b64 (some r.access_token),
            refresh_token_encrypted :=
              match r.refresh_token with
              | some (b :: bs) => TokenManager.encrypt_token cipher b64 (some (b :: bs))
              | _ => account.refresh_token_encrypted,
            token_expires_at := some (now + r.expires_in.getD 3600) },
         true)
      | none => (.httpError 401 "Failed to refresh token", account, false)
    else (.ok (TokenManager.decrypt_token cipher b64 account.access_token_encrypted), account, false)
  | none => (.ok (TokenManager.decrypt_token cipher b64 account.access_token_encrypted), account, false)

end Folders

/-! ## src/src/sync/sync_engine.py -/

namespace SyncEngine

/-- The dict {'files': files_synced, 'bytes': bytes_transferred} returned by
the two direction methods. -/
structure DirResult where
  files : Nat
  bytes : Nat
deriving DecidableEq

/-- SyncEngine._sync_onedrive_to_gdrive (src/src/sync/sync_engine.py:132-158):
a placeholder whose body only initialises both counters to 0 under TODO
comments and returns them. -/
def _sync_onedrive_to_gdrive (_onedrive_token _gdrive_token : Option Bytes)
    (_onedrive_folder _gdrive_folder_id : String) (_user_id _job_id : Nat) : DirResult :=
  ⟨0, 0⟩

/-- SyncEngine._sync_gdrive_to_onedrive (src/src/sync/sync_engine.py:160-180):
the same placeholder in the other direction. -/
def _sync_gdrive_to_onedrive (_gdrive_token _onedrive_token : Option Bytes)
    (_gdrive_folder_id _onedrive_folder : String) (_user_id _job_id : Nat) : DirResult :=
  ⟨0, 0⟩

/-- A send_sync_status call made by the engine, recorded by user, job and
status (the payload dict is not needed by any claim about the engine). -/
structure StatusCall where
  user_id : Nat
  job_id : Nat
  status : String
deriving DecidableEq

/-- SyncEngine.sync_job (src/src/sync/sync_engine.py:26-130) as a state
transformer.  `now` stands for every datetime.utcnow() reading of the run.
Returns the database after the call, the status messages sent, and `.ok`
or the re-raised exception text.  The in_progress history row added and
committed at the start is later mutated in place; the returned database
holds its final state, and `commits` counts both commits.  Token
decryption (decrypt_token) and status sending (send_sync_status) never
raise, so the only exception of the try block is
`Exception("Accounts not found")`. -/
def sync_job (cipher : Fernet) (b64 : B64Codec) (db : Models.Database) (now : Nat)
    (job_id : Nat) : Models.Database × List StatusCall × Except String Unit :=
  match db.jobs.find? (fun j => j.id == job_id) with
  | none => (db, [], .ok ())
  | some job =>
    if job.enabled = false then (db, [], .ok ())
    else
      match db.accounts.find? (fun a => a.id == job.onedrive_account_id),
            db.accounts.find? (fun a => a.id == job.gdrive_account_id) with
      | some onedrive_account, some gdrive_account =>
        let onedrive_token := TokenManager.decrypt_token cipher b64 onedrive_account.access_token_encrypted
        let gdrive_token := TokenManager.decrypt_token cipher b64 gdrive_account.access_token_encrypted
        let r1 : DirResult :=
          if job.direction = "bidirectional" ∨ job.direction = "onedrive_to_gdrive" then
            _sync_onedrive_to_gdrive onedrive_token gdrive_token
              job.onedrive_folder job.gdrive_folder job.user_id job.id
          else ⟨0, 0⟩
        let r2 : DirResult :=
          if job.direction = "bidirectional" ∨ job.direction = "gdrive_to_onedrive" then
            _sync_gdrive_to_onedrive gdrive_token onedrive_token
              job.gdrive_folder job.onedrive_folder job.user_id job.id
          else ⟨0, 0⟩
        ({ jobs := db.jobs.map (fun j => if j.id == job.id then { j with last_sync := some now } else j),
           accounts := db.accounts,
           histories := db.histories ++
             [⟨job.id, "success", r1.files + r2.files, r1.bytes + r2.bytes, now, some now, none⟩],
           commits := db.commits + 2 },
         [⟨job.user_id, job.id, "in_progress"⟩, ⟨job.user_id, job.id, "completed"⟩],
         .ok ())
      | _, _ =>
        ({ db with
            histories := db.histories ++
              [⟨job.id, "failed", 0, 0, now, some now, some "Accounts not found"⟩],
            commits := db.commits + 2 },
         [⟨job.user_id, job.id, "in_progress"⟩, ⟨job.user_id, job.id, "failed"⟩],
         .error "Accounts not found")

end SyncEngine

/-! ## src/src/api/routes/sync_jobs.py : trigger_sync -/

namespace SyncJobsRoutes

/-- The JSON body returned on success. -/
structure TriggerResponse where
  message : String
  job_id : Nat
deriving DecidableEq

/-- trigger_sync (src/src/api/routes/sync_jobs.py:195-221).  The handler
looks the job up by id and owner, raises 404 when absent and 400 when
disabled, and otherwise returns a success message; its body contains no
call into SyncEngine (the actual trigger is a TODO comment), which the
second component makes observable: the list of sync runs the handler
starts, always empty.  The handler reads no record of in-flight runs
(no such record exists in the codebase), so its result is the same
whether or not a run of the job is currently executing. -/
def trigger_sync (db : Models.Database) (user_id job_id : Nat) :
    Except (Nat × String) TriggerResponse × List Nat :=
  match db.jobs.find? (fun j => j.id == job_id && j.user_id == user_id) with
  | none => (.error (404, "Sync job not found"), [])
  | some job =>
    if job.enabled = false then (.error (400, "Sync job is disabled"), [])
    else (.ok ⟨"Sync triggered successfully", job_id⟩, [])

end SyncJobsRoutes

/-! ## Environment model for the Google Drive upload (claim C4) -/

namespace GDriveModel

/-- A file entry of a Google Drive folder. -/
structure GFile where
  id : Nat
  name : String
  parent : String
  content : Bytes
deriving DecidableEq

/-- The set of files Google Drive holds, with a fresh-id counter. -/
structure GDriveState where
  files : List GFile
  nextId : Nat
deriving DecidableEq

/-- Modelled from the Google Drive v3 API documentation, for the two HTTP
requests upload_to_gdrive makes (src/src/sync/file_operations.py:105-150):
`POST /upload/drive/v3/files?uploadType=resumable` with metadata
`{"name": file_name, "parents": [folder_id]}` — no file id, no overwrite
flag, no conflict directive — initiates the CREATION of a new file (Drive
folders admit several files with the same name), and the chunk PUTs to the
returned session URL fill the new file's content. -/
def gdriveResumableCreate (st : GDriveState) (name parent : String)
    (content : Bytes) : GDriveState × GFile :=
  (⟨st.files ++ [⟨st.nextId, name, parent, content⟩], st.nextId + 1⟩,
   ⟨st.nextId, name, parent, content⟩)

/-- Effect of one successful FileOperations.upload_to_gdrive call on the
Drive state: exactly the resumable-create sequence above. -/
def upload_to_gdrive_effect (st : GDriveState) (file_name folder_id : String)
    (content : Bytes) : GDriveState × GFile :=
  gdriveResumableCreate st file_name folder_id content

/-- Number of files with the given name under the given folder. -/
def countName (st : GDriveState) (name parent : String) : Nat :=
  (st.files.filter (fun f => f.name == name && f.parent == parent)).length

end GDriveModel

/-! ## Concrete fixtures used to evaluate the claim theorems -/

/-- Toy Fernet instance: prepends a marker byte. -/
def fernetToy : Fernet :=
  ⟨fun l => 0 :: l, fun l => match l with | 0 :: t => some t | _ => none⟩

/-- Toy base64 codec: prepends a marker byte. -/
def b64Toy : B64Codec :=
  ⟨fun l => 1 :: l, fun l => match l with | 1 :: t => some t | _ => none⟩

/-- An enabled bidirectional job owned by user 7. -/
def jobA : Models.SyncJob :=
  ⟨1, 7, "job", 2, 3, "/docs", "folder-id", "bidirectional", true, none⟩

/-- A connected OneDrive account of user 7. -/
def acctOneDrive : Models.ConnectedAccount :=
  ⟨2, 7, "onedrive", some [9], some [8], none⟩

/-- A connected Google Drive account of user 7. -/
def acctGDrive : Models.ConnectedAccount :=
  ⟨3, 7, "gdrive", some [7], some [6], none⟩

/-- A database holding the job and both accounts. -/
def dbA : Models.Database :=
  ⟨[jobA], [acctOneDrive, acctGDrive], [], 0⟩

/-- The empty database. -/
def dbEmpty : Models.Database :=
  ⟨[], [], [], 0⟩

/-- A OneDrive account whose token expired at time 10. -/
def acctExpired : Models.ConnectedAccount :=
  ⟨4, 7, "onedrive", some [9], some [8], some 10⟩

/-- An OAuth environment whose azure client always returns a fresh token. -/
def envToy : Folders.OAuthEnv :=
  ⟨fun _ => some ⟨[2, 2], some [3, 3], some 100⟩, fun _ => none⟩

/-- A user with two connections, the first of which raises on send. -/
def activeToy : Websocket.ActiveConnections :=
  [(7, [.error (), .ok ()])]

/-- A Drive state with one file a.txt in folder root. -/
def gdriveStateA : GDriveModel.GDriveState :=
  ⟨[⟨0, "a.txt", "root", [1]⟩], 1⟩

end SyncRepo

namespace SyncRepo

/-! ## Helper lemmas -/

theorem FileOperations.foldl_shaUpdate (blocks : List Bytes) (acc : Bytes) :
    (blocks.foldl FileOperations.shaUpdate ⟨acc⟩).fed = acc ++ blocks.flatten := by
  induction blocks generalizing acc with
  | nil => simp
  | cons b bs ih => simp [FileOperations.shaUpdate, ih]

theorem FileOperations.readBlocks4096_flatten (l : Bytes) :
    (FileOperations.readBlocks4096 l).flatten = l := by
  induction l using FileOperations.readBlocks4096.induct with
  | case1 => simp [FileOperations.readBlocks4096]
  | case2 b bs ih =>
    rw [FileOperations.readBlocks4096, List.flatten_cons, ih, List.take_append_drop]

theorem FileOperations.chunkLen_self (n u : Nat) :
    FileOperations.chunkLen n u u = min FileOperations.CHUNK_SIZE (n - u) := by
  unfold FileOperations.chunkLen
  omega

theorem FileOperations.upload_loop_all_continue (contStatus : Nat)
    (h200 : ¬(contStatus = 200 ∨ contStatus = 201))
    (resp : Nat → Nat) (hresp : ∀ i, resp i = contStatus) (n : Nat) :
    ∀ fuel uploaded i reqs, n - uploaded ≤ fuel * FileOperations.CHUNK_SIZE →
      FileOperations.upload_chunk_loop contStatus resp n (fuel + 1) uploaded uploaded i reqs
        = (.uploadFailed, reqs ++ FileOperations.chunkPlan n uploaded) := by
  intro fuel
  induction fuel with
  | zero =>
    intro uploaded i reqs hb
    have hn : ¬ uploaded < n := by omega
    rw [FileOperations.upload_chunk_loop, if_neg hn, FileOperations.chunkPlan, dif_neg hn,
      List.append_nil]
  | succ fuel ih =>
    intro uploaded i reqs hb
    by_cases hu : uploaded < n
    · have h1 : ¬(resp i = 200 ∨ resp i = 201) := by rw [hresp i]; exact h200
      have h2 : resp i = contStatus := hresp i
      rw [FileOperations.upload_chunk_loop, if_pos hu, if_neg h1, if_pos h2,
        FileOperations.chunkLen_self]
      have hbound : n - (uploaded + min FileOperations.CHUNK_SIZE (n - uploaded))
          ≤ fuel * FileOperations.CHUNK_SIZE := by
        simp only [FileOperations.CHUNK_SIZE] at hb ⊢
        omega
      rw [ih (uploaded + min FileOperations.CHUNK_SIZE (n - uploaded)) (i + 1)
        (reqs ++ [FileOperations.mkChunkRequest n uploaded uploaded]) hbound]
      conv_rhs => rw [FileOperations.chunkPlan, dif_pos hu]
      simp [FileOperations.mkChunkRequest, FileOperations.chunkLen_self]
    · rw [FileOperations.upload_chunk_loop, if_neg hu, FileOperations.chunkPlan, dif_neg hu,
        List.append_nil]

theorem FileOperations.chunkPlan_props (n : Nat) : ∀ u,
    ∀ r ∈ FileOperations.chunkPlan n u,
      r.dataLen = min FileOperations.CHUNK_SIZE (n - r.rangeStart)
      ∧ r.rangeStop = r.rangeStart + r.dataLen ∧ r.total = n ∧ r.rangeStop ≤ n := by
  intro u
  induction u using FileOperations.chunkPlan.induct n with
  | case1 u hu ih =>
    intro r hr
    rw [FileOperations.chunkPlan, dif_pos hu] at hr
    rcases List.mem_cons.mp hr with h | h
    · subst h
      refine ⟨by simp, by simp, by simp, ?_⟩
      simp only [FileOperations.CHUNK_SIZE]
      omega
    · exact ih r h
  | case2 u hu =>
    intro r hr
    rw [FileOperations.chunkPlan, dif_neg hu] at hr
    exact absurd hr (List.not_mem_nil r)

theorem FileOperations.chunkPlan_head (n : Nat) (u : Nat) :
    ∀ b ∈ (FileOperations.chunkPlan n u).head?, b.rangeStart = u := by
  intro b hb
  rw [FileOperations.chunkPlan] at hb
  by_cases hu : u < n
  · rw [dif_pos hu] at hb
    simp only [List.head?_cons, Option.mem_def, Option.some.injEq] at hb
    rw [← hb]
  · rw [dif_neg hu] at hb
    simp at hb

theorem FileOperations.chunkPlan_chain (n : Nat) : ∀ u,
    List.Chain' (fun a b => b.rangeStart = a.rangeStop) (FileOperations.chunkPlan n u) := by
  intro u
  induction u using FileOperations.chunkPlan.induct n with
  | case1 u hu ih =>
    rw [FileOperations.chunkPlan, dif_pos hu]
    rw [List.chain'_cons']
    refine ⟨?_, ih⟩
    intro b hb
    rw [FileOperations.chunkPlan_head n _ b hb]
  | case2 u hu =>
    rw [FileOperations.chunkPlan, dif_neg hu]
    exact List.chain'_nil

theorem FileOperations.chunkPlan_sum (n : Nat) : ∀ u,
    ((FileOperations.chunkPlan n u).map FileOperations.ChunkRequest.dataLen).sum = n - u := by
  intro u
  induction u using FileOperations.chunkPlan.induct n with
  | case1 u hu ih =>
    rw [FileOperations.chunkPlan, dif_pos hu]
    simp only [List.map_cons, List.sum_cons, ih]
    simp only [FileOperations.CHUNK_SIZE] at *
    omega
  | case2 u hu =>
    rw [FileOperations.chunkPlan, dif_neg hu]
    simp
    omega

theorem FileOperations.upload_loop_success_status (contStatus : Nat) (resp : Nat → Nat)
    (n : Nat) : ∀ fuel uploaded pos i reqs j,
    (FileOperations.upload_chunk_loop contStatus resp n fuel uploaded pos i reqs).1
      = FileOperations.UploadOutcome.success j →
    resp j = 200 ∨ resp j = 201 := by
  intro fuel
  induction fuel with
  | zero =>
    intro uploaded pos i reqs j h
    rw [FileOperations.upload_chunk_loop] at h
    exact absurd h (by simp)
  | succ fuel ih =>
    intro uploaded pos i reqs j h
    rw [FileOperations.upload_chunk_loop] at h
    by_cases hu : uploaded < n
    · rw [if_pos hu] at h
      by_cases h1 : resp i = 200 ∨ resp i = 201
      · rw [if_pos h1] at h
        simp only [FileOperations.UploadOutcome.success.injEq] at h
        rw [← h]
        exact h1
      · rw [if_neg h1] at h
        by_cases h2 : resp i = contStatus
        · rw [if_pos h2] at h
          exact ih _ _ _ _ _ h
        · rw [if_neg h2] at h
          by_cases h3 : 400 ≤ resp i ∧ resp i < 600
          · rw [if_pos h3] at h
            exact absurd h (by simp)
          · rw [if_neg h3] at h
            exact ih _ _ _ _ _ h
    · rw [if_neg hu] at h
      exact absurd h (by simp)

theorem FileOperations.upload_loop_success_step (contStatus : Nat) (resp : Nat → Nat)
    (n fuel uploaded pos i : Nat) (reqs : List FileOperations.ChunkRequest)
    (hu : uploaded < n) (h1 : resp i = 200 ∨ resp i = 201) :
    FileOperations.upload_chunk_loop contStatus resp n (fuel + 1) uploaded pos i reqs
      = (.success i, reqs ++ [FileOperations.mkChunkRequest n uploaded pos]) := by
  rw [FileOperations.upload_chunk_loop, if_pos hu, if_pos h1]

/-! ## Claim theorems -/

/-- C9: token encryption round-trips and its error branch is total.  For any
cipher and base64 codec satisfying their documented contracts:
decrypt_token inverts encrypt_token on every non-empty token; both return
`none` on `None`/empty input; and decrypt_token returns `none` (instead of
raising) whenever base64 decoding or Fernet decryption fails. -/
theorem claim_C9_token_roundtrip
    (cipher : Fernet) (b64 : B64Codec)
    (hdec : ∀ x, cipher.decrypt (cipher.encrypt x) = some x)
    (hb64 : ∀ x, b64.dec (b64.enc x) = some x)
    (hne : ∀ x, x ≠ [] → b64.enc (cipher.encrypt x) ≠ []) :
    (∀ t : Bytes, t ≠ [] →
      TokenManager.decrypt_token cipher b64
        (TokenManager.encrypt_token cipher b64 (some t)) = some t)
    ∧ TokenManager.encrypt_token cipher b64 none = none
    ∧ TokenManager.encrypt_token cipher b64 (some []) = none
    ∧ TokenManager.decrypt_token cipher b64 none = none
    ∧ TokenManager.decrypt_token cipher b64 (some []) = none
    ∧ (∀ s, b64.dec s = none → s ≠ [] →
        TokenManager.decrypt_token cipher b64 (some s) = none)
    ∧ (∀ s d, b64.dec s = some d → cipher.decrypt d = none → s ≠ [] →
        TokenManager.decrypt_token cipher b64 (some s) = none) := by
  refine ⟨?_, rfl, rfl, rfl, rfl, ?_, ?_⟩
  · intro t ht
    simp only [TokenManager.encrypt_token, TokenManager.decrypt_token, if_neg ht,
      if_neg (hne t ht), hb64, hdec]
  · intro s hs hne'
    simp only [TokenManager.decrypt_token, if_neg hne', hs]
  · intro s d hs hd hne'
    simp only [TokenManager.decrypt_token, if_neg hne', hs, hd]

theorem claim_C9_token_roundtrip_witness :
    TokenManager.decrypt_token fernetToy b64Toy
      (TokenManager.encrypt_token fernetToy b64Toy (some [5, 6])) = some [5, 6] :=
  (claim_C9_token_roundtrip fernetToy b64Toy (fun _ => rfl) (fun _ => rfl)
    (fun _ _ => List.cons_ne_nil _ _)).1 [5, 6] (by decide)

/-- C7: calculate_file_hash computes the content hash as SHA-256: for every
file content and every digest function (in particular the SHA-256 hex
digest), the 4096-byte block-wise incremental hashing equals hashing the
whole byte string in one call. -/
theorem claim_C7_blockwise_hash (sha256hex : Bytes → Bytes) (content : Bytes) :
    FileOperations.calculate_file_hash sha256hex content = sha256hex content := by
  unfold FileOperations.calculate_file_hash FileOperations.hexdigest
  rw [FileOperations.foldl_shaUpdate, List.nil_append, FileOperations.readBlocks4096_flatten]

/-- C2, counterexample to the claim as stated.  The claim says auth errors
(and permanent non-auth 4xx errors) are not retried and are surfaced
immediately, i.e. the call ends after attempt 1.  The decorator
`@retry(stop=stop_after_attempt(5), ..., reraise=True)` carries the
tenacity default retry predicate, which retries every exception: an
attempt body that always raises an auth error is attempted 5 times, not 1. -/
theorem claim_C2_counterexample :
    (FileOperations.download_onedrive_file
        (fun _ => .error FileOperations.ErrKind.auth)).2.1 = 5 ∧ (5 : Nat) ≠ 1 :=
  ⟨rfl, by decide⟩

/-- C2 (amended): the four HTTP transfer operations are retried with capped
exponential backoff, bounded at 5 attempts with every wait at most 60
seconds (the waits slept on an always-failing call are 4, 4, 8, 16
seconds), after which the last error is re-raised; the retry policy is
uniform over error kinds — auth and permanent (non-auth 4xx) errors are
retried exactly like transient ones rather than being surfaced
immediately (`e` below assigns an arbitrary kind to each attempt and the
behaviour does not depend on it). -/
theorem claim_C2_uniform_retry (action : Nat → Except FileOperations.ErrKind Bytes)
    (e : Nat → FileOperations.ErrKind) (hfail : ∀ k, action k = .error (e k)) :
    FileOperations.download_onedrive_file action = (.error (e 5), 5, [4, 4, 8, 16])
    ∧ FileOperations.upload_to_gdrive_retried action = (.error (e 5), 5, [4, 4, 8, 16])
    ∧ FileOperations.download_gdrive_file action = (.error (e 5), 5, [4, 4, 8, 16])
    ∧ FileOperations.upload_to_onedrive_retried action = (.error (e 5), 5, [4, 4, 8, 16])
    ∧ (∀ k, FileOperations.wait_exponential 1 4 60 k ≤ 60) := by
  have hrun : FileOperations.retryCall action = (.error (e 5), 5, [4, 4, 8, 16]) := by
    simp only [FileOperations.retryCall, FileOperations.retryGo, hfail,
      FileOperations.wait_exponential]
    norm_num
  refine ⟨hrun, hrun, hrun, hrun, ?_⟩
  intro k
  unfold FileOperations.wait_exponential
  exact max_le (by norm_num) (min_le_right _ _)

theorem claim_C2_uniform_retry_witness :
    FileOperations.download_onedrive_file (fun _ => .error FileOperations.ErrKind.permanent)
      = (.error FileOperations.ErrKind.permanent, 5, [4, 4, 8, 16]) :=
  (claim_C2_uniform_retry (fun _ => .error FileOperations.ErrKind.permanent)
    (fun _ => FileOperations.ErrKind.permanent) (fun _ => rfl)).1

/-- C5, counterexample to the claim as stated.  The claim says each
iteration reads `min(CHUNK_SIZE, n - uploaded)` bytes and the ranges sent
are non-overlapping.  A response status outside
{200, 201, continue, 400..599} — here 204 on every chunk PUT of a 5-byte
file — falls through the if/elif chain without advancing `uploaded` while
the file handle has advanced: the second request re-sends range start 0
(already sent by the first request) with 0 bytes of data, although the
claim requires `min(CHUNK_SIZE, 5 - 0) = 5` bytes, and the loop never
terminates (it neither returns nor raises). -/
theorem claim_C5_counterexample :
    (FileOperations.gdrive_upload_loop (fun _ => 204) 5 3).2
      = [⟨0, 5, 5, 5⟩, ⟨0, 0, 5, 0⟩, ⟨0, 0, 5, 0⟩]
    ∧ (0 : Nat) ≠ min FileOperations.CHUNK_SIZE (5 - 0)
    ∧ (FileOperations.gdrive_upload_loop (fun _ => 204) 5 3).1
      = FileOperations.UploadOutcome.noTermination := by
  refine ⟨by decide, by decide, by decide⟩

/-- C5 (amended): the chunked upload loops of upload_to_gdrive and
upload_to_onedrive iterate over the file in order, provided the server
answers each chunk with the statuses the code handles.  When every
response is the continue status (308 for Google Drive, 202 for OneDrive),
the issued requests are exactly the chunk plan: every request sends
`min(CHUNK_SIZE, n - rangeStart)` bytes with Content-Range end
`rangeStart + dataLen` bounded by n, consecutive ranges are contiguous
(hence non-overlapping), the first range starts at 0, and the data
lengths sum to n, so together they cover [0, n) exactly once; the loop
then raises `Exception("Upload failed")`.  The loop returns the response
body exactly when a chunk request returns status 200 or 201: a `success`
outcome can only arise from such a response, and such a response returns
immediately.  (As originally stated — with no restriction on response
statuses — the claim is false; see the counterexample.) -/
theorem claim_C5_chunk_ranges (resp resp' : Nat → Nat) (n fuel : Nat)
    (hresp : ∀ i, resp i = 308) (hresp' : ∀ i, resp' i = 202)
    (hfuel : n ≤ fuel * FileOperations.CHUNK_SIZE) :
    FileOperations.gdrive_upload_loop resp n (fuel + 1)
      = (.uploadFailed, FileOperations.chunkPlan n 0)
    ∧ FileOperations.onedrive_upload_loop resp' n (fuel + 1)
      = (.uploadFailed, FileOperations.chunkPlan n 0)
    ∧ (∀ r ∈ FileOperations.chunkPlan n 0,
        r.dataLen = min FileOperations.CHUNK_SIZE (n - r.rangeStart)
        ∧ r.rangeStop = r.rangeStart + r.dataLen ∧ r.total = n ∧ r.rangeStop ≤ n)
    ∧ List.Chain' (fun a b => b.rangeStart = a.rangeStop) (FileOperations.chunkPlan n 0)
    ∧ ((FileOperations.chunkPlan n 0).map FileOperations.ChunkRequest.dataLen).sum = n
    ∧ (0 < n → ∀ b ∈ (FileOperations.chunkPlan n 0).head?, b.rangeStart = 0)
    ∧ (∀ c r2 m fuel2 uploaded pos i reqs j,
        (FileOperations.upload_chunk_loop c r2 m fuel2 uploaded pos i reqs).1
          = FileOperations.UploadOutcome.success j → r2 j = 200 ∨ r2 j = 201)
    ∧ (∀ c r2 m fuel2 uploaded pos i reqs, uploaded < m → (r2 i = 200 ∨ r2 i = 201) →
        FileOperations.upload_chunk_loop c r2 m (fuel2 + 1) uploaded pos i reqs
          = (.success i, reqs ++ [FileOperations.mkChunkRequest m uploaded pos])) := by
  refine ⟨?_, ?_, ?_, ?_, ?_, ?_, ?_, ?_⟩
  · exact FileOperations.upload_loop_all_continue 308 (by decide) resp hresp n fuel 0 0 []
      (by omega)
  · exact FileOperations.upload_loop_all_continue 202 (by decide) resp' hresp' n fuel 0 0 []
      (by omega)
  · exact FileOperations.chunkPlan_props n 0
  · exact FileOperations.chunkPlan_chain n 0
  · have h := FileOperations.chunkPlan_sum n 0
    omega
  · intro _ b hb
    exact FileOperations.chunkPlan_head n 0 b hb
  · intro c r2 m fuel2 uploaded pos i reqs j h
    exact FileOperations.upload_loop_success_status c r2 m fuel2 uploaded pos i reqs j h
  · intro c r2 m fuel2 uploaded pos i reqs hu h1
    exact FileOperations.upload_loop_success_step c r2 m fuel2 uploaded pos i reqs hu h1

theorem claim_C5_chunk_ranges_witness :
    FileOperations.gdrive_upload_loop (fun _ => 308) 5 2
      = (.uploadFailed, FileOperations.chunkPlan 5 0) :=
  (claim_C5_chunk_ranges (fun _ => 308) (fun _ => 202) 5 1 (fun _ => rfl) (fun _ => rfl)
    (by norm_num [FileOperations.CHUNK_SIZE])).1

/-- C1: both direction methods are stubs returning the dict
{'files': 0, 'bytes': 0} for every combination of tokens, folders, user id
and job id; consequently every sync_job run that reaches the success path
(job present and enabled, both accounts found) appends a SyncHistory row
with status success, files_synced = 0 and bytes_transferred = 0, and
returns without raising. -/
theorem claim_C1_stub_sync (cipher : Fernet) (b64 : B64Codec) (db : Models.Database)
    (now job_id : Nat) (job : Models.SyncJob)
    (hfind : db.jobs.find? (fun j => j.id == job_id) = some job)
    (hen : job.enabled = true)
    (ha1 : (db.accounts.find? (fun a => a.id == job.onedrive_account_id)).isSome = true)
    (ha2 : (db.accounts.find? (fun a => a.id == job.gdrive_account_id)).isSome = true) :
    (∀ t1 t2 f1 f2 u j, SyncEngine._sync_onedrive_to_gdrive t1 t2 f1 f2 u j = ⟨0, 0⟩)
    ∧ (∀ t1 t2 f1 f2 u j, SyncEngine._sync_gdrive_to_onedrive t1 t2 f1 f2 u j = ⟨0, 0⟩)
    ∧ (SyncEngine.sync_job cipher b64 db now job_id).1.histories
        = db.histories ++ [⟨job.id, "success", 0, 0, now, some now, none⟩]
    ∧ (SyncEngine.sync_job cipher b64 db now job_id).2.2 = .ok () := by
  obtain ⟨a1, ha1'⟩ := Option.isSome_iff_exists.mp ha1
  obtain ⟨a2, ha2'⟩ := Option.isSome_iff_exists.mp ha2
  refine ⟨fun _ _ _ _ _ _ => rfl, fun _ _ _ _ _ _ => rfl, ?_, ?_⟩ <;>
    simp [SyncEngine.sync_job, hfind, hen, ha1', ha2',
      SyncEngine._sync_onedrive_to_gdrive, SyncEngine._sync_gdrive_to_onedrive, ite_self]

theorem claim_C1_stub_sync_witness :
    (SyncEngine.sync_job fernetToy b64Toy dbA 42 1).1.histories
      = dbA.histories ++ [⟨jobA.id, "success", 0, 0, 42, some 42, none⟩] :=
  (claim_C1_stub_sync fernetToy b64Toy dbA 42 1 jobA rfl rfl rfl rfl).2.2.1

/-- C10: for a job id with no SyncJob row, or whose row has enabled = False,
sync_job returns without observable effect: the database (all three tables
and the commit counter) is unchanged, no status message is sent, and
nothing is raised. -/
theorem claim_C10_no_effect (cipher : Fernet) (b64 : B64Codec) (db : Models.Database)
    (now job_id : Nat)
    (h : db.jobs.find? (fun j => j.id == job_id) = none
      ∨ ∃ job, db.jobs.find? (fun j => j.id == job_id) = some job ∧ job.enabled = false) :
    SyncEngine.sync_job cipher b64 db now job_id = (db, [], .ok ()) := by
  rcases h with h | ⟨job, hj, hen⟩
  · simp [SyncEngine.sync_job, h]
  · simp [SyncEngine.sync_job, hj, hen]

theorem claim_C10_no_effect_witness :
    SyncEngine.sync_job fernetToy b64Toy dbEmpty 0 1 = (dbEmpty, [], .ok ()) :=
  claim_C10_no_effect fernetToy b64Toy dbEmpty 0 1 (Or.inl rfl)

/-- C3: get_valid_token returns a currently valid bearer token for a
connected account.  If token_expires_at has not passed (or is unset) it
returns the decrypted stored access token, leaving the account record
unchanged and committing nothing; if expired, it refreshes through the
provider selected by the account platform, persists the re-encrypted
refreshed access token (and the refresh token when a non-empty one is
returned) with expiry now + expires_in (default 3600), commits, and
returns the fresh token; if the refresh fails it raises HTTPException 401,
the AuthError signal, leaving the account unchanged. -/
theorem claim_C3_get_valid_token (cipher : Fernet) (b64 : B64Codec)
    (env : Folders.OAuthEnv) (now : Nat) (account : Models.ConnectedAccount) :
    ((account.token_expires_at = none
        ∨ ∃ e, account.token_expires_at = some e ∧ ¬ e < now) →
      Folders.get_valid_token cipher b64 env now account
        = (.ok (TokenManager.decrypt_token cipher b64 account.access_token_encrypted),
           account, false))
    ∧ (∀ e r, account.token_expires_at = some e → e < now →
        (if account.platform = "onedrive"
         then env.azureRefresh (TokenManager.decrypt_token cipher b64 account.refresh_token_encrypted)
         else env.googleRefresh (TokenManager.decrypt_token cipher b64 account.refresh_token_encrypted))
          = some r →
        (Folders.get_valid_token cipher b64 env now account).1 = .ok (some r.access_token)
        ∧ (Folders.get_valid_token cipher b64 env now account).2.1.access_token_encrypted
            = TokenManager.encrypt_token cipher b64 (some r.access_token)
        ∧ (Folders.get_valid_token cipher b64 env now account).2.1.token_expires_at
            = some (now + r.expires_in.getD 3600)
        ∧ (Folders.get_valid_token cipher b64 env now account).2.2 = true
        ∧ (∀ x xs, r.refresh_token = some (x :: xs) →
            (Folders.get_valid_token cipher b64 env now account).2.1.refresh_token_encrypted
              = TokenManager.encrypt_token cipher b64 (some (x :: xs))))
    ∧ (∀ e, account.token_expires_at = some e → e < now →
        (if account.platform = "onedrive"
         then env.azureRefresh (TokenManager.decrypt_token cipher b64 account.refresh_token_encrypted)
         else env.googleRefresh (TokenManager.decrypt_token cipher b64 account.refresh_token_encrypted))
          = none →
        Folders.get_valid_token cipher b64 env now account
          = (.httpError 401 "Failed to refresh token", account, false)) := by
  refine ⟨?_, ?_, ?_⟩
  · rintro (h | ⟨e, he, hlt⟩)
    · simp [Folders.get_valid_token, h]
    · simp [Folders.get_valid_token, he, hlt]
  · intro e r he hlt hr
    refine ⟨?_, ?_, ?_, ?_, ?_⟩ <;>
      simp only [Folders.get_valid_token, he, if_pos hlt, hr]
    intro x xs hx
    simp [hx]
  · intro e he hlt hr
    simp only [Folders.get_valid_token, he, if_pos hlt, hr]

theorem claim_C3_get_valid_token_witness :
    (Folders.get_valid_token fernetToy b64Toy envToy 42 acctExpired).1 = .ok (some [2, 2])
    ∧ (Folders.get_valid_token fernetToy b64Toy envToy 42 acctExpired).2.2 = true :=
  have h := (claim_C3_get_valid_token fernetToy b64Toy envToy 42 acctExpired).2.1
    10 ⟨[2, 2], some [3, 3], some 100⟩ rfl (by decide) rfl
  ⟨h.1, h.2.2.2.1⟩

/-- C6: status delivery is fire-and-forget.  For every connection-manager
state, user id, job id, status and progress dict, send_sync_status returns
`.ok` — it completes without raising whether or not the user has any open
connection — and the message is attempted once on EVERY connection of the
user, so a send failure on one connection (swallowed by the per-connection
try/except) does not stop the attempt on the remaining connections. -/
theorem claim_C6_fire_and_forget (active : Websocket.ActiveConnections)
    (user_id job_id : Nat) (status : String)
    (progress : Option (List (String × String))) (now : Nat) :
    Websocket.send_sync_status active user_id job_id status progress now
      = .ok (((Websocket.lookupConnections active user_id).getD []).map
          (fun c => ⟨⟨"sync_status", job_id, status, progress.getD [], now⟩,
            Websocket.trySendJson c⟩))
    ∧ (Websocket.lookupConnections active user_id = none →
        Websocket.send_sync_status active user_id job_id status progress now = .ok [])
    ∧ (∀ conns, Websocket.lookupConnections active user_id = some conns →
        ∃ attempts, Websocket.send_sync_status active user_id job_id status progress now
            = .ok attempts ∧ attempts.length = conns.length) := by
  refine ⟨?_, ?_, ?_⟩
  · unfold Websocket.send_sync_status Websocket.send_personal_message
    cases h : Websocket.lookupConnections active user_id <;> simp [h]
  · intro h
    unfold Websocket.send_sync_status Websocket.send_personal_message
    rw [h]
  · intro conns h
    unfold Websocket.send_sync_status Websocket.send_personal_message
    rw [h]
    exact ⟨_, rfl, by simp⟩

theorem claim_C6_fire_and_forget_witness :
    Websocket.send_sync_status activeToy 7 1 "in_progress" none 5
      = .ok (((Websocket.lookupConnections activeToy 7).getD []).map
          (fun c => ⟨⟨"sync_status", 1, "in_progress", [], 5⟩, Websocket.trySendJson c⟩))
    ∧ ((Websocket.lookupConnections activeToy 7).getD []).map
          (fun c => (⟨⟨"sync_status", 1, "in_progress", [], 5⟩, Websocket.trySendJson c⟩
            : Websocket.Attempt))
        = [⟨⟨"sync_status", 1, "in_progress", [], 5⟩, .errorSwallowed⟩,
           ⟨⟨"sync_status", 1, "in_progress", [], 5⟩, .sent⟩] :=
  ⟨(claim_C6_fire_and_forget activeToy 7 1 "in_progress" none 5).1, by decide⟩

/-- C8, counterexample to the claim as stated.  The claim says a second
trigger arriving while a run of the job is executing is rejected or
queued.  dbA holds an enabled job with id 1 owned by user 7; whatever run
of that job may be executing (the handler consults no record of in-flight
runs — no such record exists), the trigger is answered with a plain
success response and starts nothing: it is not rejected (no error
response) and nothing is queued or recorded anywhere. -/
theorem claim_C8_counterexample :
    SyncJobsRoutes.trigger_sync dbA 7 1
      = (.ok ⟨"Sync triggered successfully", 1⟩, []) := rfl

/-- C8 (amended): trigger_sync never starts a sync run at all — its body
contains no call into the engine — so no concurrent pass can ever be
started through this endpoint; but a second trigger for an enabled job is
neither rejected nor queued: it receives the same success response as the
first, independent of any in-flight run.  Missing jobs get 404, disabled
jobs get 400. -/
theorem claim_C8_trigger_stub (db : Models.Database) (user_id job_id : Nat) :
    (SyncJobsRoutes.trigger_sync db user_id job_id).2 = []
    ∧ (db.jobs.find? (fun j => j.id == job_id && j.user_id == user_id) = none →
        (SyncJobsRoutes.trigger_sync db user_id job_id).1
          = .error (404, "Sync job not found"))
    ∧ (∀ job, db.jobs.find? (fun j => j.id == job_id && j.user_id == user_id) = some job →
        job.enabled = false →
        (SyncJobsRoutes.trigger_sync db user_id job_id).1
          = .error (400, "Sync job is disabled"))
    ∧ (∀ job, db.jobs.find? (fun j => j.id == job_id && j.user_id == user_id) = some job →
        job.enabled = true →
        (SyncJobsRoutes.trigger_sync db user_id job_id).1
          = .ok ⟨"Sync triggered successfully", job_id⟩) := by
  refine ⟨?_, ?_, ?_, ?_⟩
  · cases h : db.jobs.find? (fun j => j.id == job_id && j.user_id == user_id) with
    | none => simp [SyncJobsRoutes.trigger_sync, h]
    | some job =>
      by_cases he : job.enabled = false <;> simp [SyncJobsRoutes.trigger_sync, h, he]
  · intro h
    simp [SyncJobsRoutes.trigger_sync, h]
  · intro job h he
    simp [SyncJobsRoutes.trigger_sync, h, he]
  · intro job h he
    simp [SyncJobsRoutes.trigger_sync, h, he]

theorem claim_C8_trigger_stub_witness :
    (SyncJobsRoutes.trigger_sync dbA 7 1).2 = []
    ∧ (SyncJobsRoutes.trigger_sync dbA 7 1).1 = .ok ⟨"Sync triggered successfully", 1⟩ :=
  ⟨(claim_C8_trigger_stub dbA 7 1).1, (claim_C8_trigger_stub dbA 7 1).2.2.2 jobA rfl rfl⟩

/-- C4, counterexample to the claim as stated.  The claim says an upload
whose target folder already has a file of the given name replaces that
file rather than creating a second entry.  gdriveStateA holds one file
named a.txt under folder root; after upload_to_gdrive of a.txt into root
the folder holds TWO entries named a.txt, and the first entry, content
included, is untouched — nothing was overwritten. -/
theorem claim_C4_counterexample :
    GDriveModel.countName
        (GDriveModel.upload_to_gdrive_effect gdriveStateA "a.txt" "root" [2, 3]).1
        "a.txt" "root" = 2
    ∧ GDriveModel.countName gdriveStateA "a.txt" "root" = 1
    ∧ (GDriveModel.upload_to_gdrive_effect gdriveStateA "a.txt" "root" [2, 3]).1.files.head?
        = some ⟨0, "a.txt", "root", [1]⟩ :=
  ⟨by decide, by decide, by decide⟩

/-- C4 (amended): upload_to_gdrive never overwrites.  Its initiation
request is a Drive v3 files.create (name and parents metadata only, no
file id, no overwrite or conflict directive), which creates a new file —
Drive folders admit several same-named entries — so uploading into a
folder that already holds a file of that name adds a second entry with the
same name and leaves every existing entry, content included, unchanged.
(The OneDrive path delegates conflict handling to the provider default of
its upload session, likewise without requesting an overwrite.) -/
theorem claim_C4_creates_duplicate (st : GDriveModel.GDriveState)
    (file_name folder_id : String) (content : Bytes) :
    (GDriveModel.upload_to_gdrive_effect st file_name folder_id content).1.files
      = st.files ++ [⟨st.nextId, file_name, folder_id, content⟩]
    ∧ GDriveModel.countName
        (GDriveModel.upload_to_gdrive_effect st file_name folder_id content).1
        file_name folder_id
      = GDriveModel.countName st file_name folder_id + 1 := by
  constructor
  · rfl
  · unfold GDriveModel.countName GDriveModel.upload_to_gdrive_effect
      GDriveModel.gdriveResumableCreate
    simp [List.filter_append]

end SyncRepo
